import Mathlib

/-!
Verification of the Device API Discovery & Credential Lifecycle Engine
(`src/app/discovery.py`, class `ApiDiscovery`) against its design
specification.

The Python code is shallowly embedded: JSON values become an inductive
type, the pure analyzer functions become structurally recursive Lean
functions, and the stateful credential flow becomes explicit state
passing over an environment oracle that supplies the outcome of each
HTTP call.  Machine-level aspects (logging, SSL flags, request payload
construction) that cannot influence any of the verified properties are
absorbed into the oracle and noted in comments.
-/

set_option autoImplicit false

/-- JSON values as produced by `response.json()` in Python.  Floats carry a
rational payload: the engine never does float arithmetic, it only tests
`isinstance(_, float)` and truthiness, both of which are exact on rationals. -/
inductive Json where
  | null : Json
  | bool : Bool → Json
  | int : Int → Json
  | float : Rat → Json
  | str : String → Json
  | arr : List Json → Json
  | obj : List (String × Json) → Json

/-- A metric emitted by `_analyze_json_structure`: the Python dict
with keys "path", "name" and "type". -/
structure Metric where
  path : String
  name : String
  type : String
deriving DecidableEq

/-- A tag emitted by `_analyze_json_structure`: the Python dict
with keys "path" and "name". -/
structure Tag where
  path : String
  name : String
deriving DecidableEq

/-- Python `path.replace(".", "_")`.  The pattern is the single character
`.`, so the replacement is an exact character-wise map. -/
def replaceDots (s : String) : String :=
  String.mk (s.toList.map (fun c => if c = '.' then '_' else c))

/-- Python path concatenation from `_analyze_json_structure`: the key when
the prefix is empty, else prefix, dot, key. -/
def pathJoin (pre key : String) : String :=
  if pre = "" then key else pre ++ "." ++ key

mutual

/-- `ApiDiscovery._analyze_json_structure(data, prefix)`.  Note that in
Python `bool` is a subclass of `int`, so `isinstance(value, (int, float))`
is true for booleans: a boolean object value is classified as an `int`
metric.  `isinstance(value, float)` is false for ints and bools. -/
def analyze_json_structure (data : Json) (pre : String) : List Metric × List Tag :=
  match data with
  | .obj fields => analyze_json_fields fields pre
  | .arr (sample :: _) =>
      -- Sample the first item for arrays
      analyze_json_structure sample (pre ++ "[*]")
  | _ => ([], [])

/-- The `for key, value in data.items()` loop body of
`_analyze_json_structure`, iterating the object fields in order. -/
def analyze_json_fields (fields : List (String × Json)) (pre : String) :
    List Metric × List Tag :=
  match fields with
  | [] => ([], [])
  | (key, value) :: rest =>
    let path := pathJoin pre key
    let here : List Metric × List Tag :=
      match value with
      | .int _ => ([{ path := path, name := replaceDots path, type := "int" }], [])
      | .bool _ =>
          -- isinstance(True, int) holds in Python, and isinstance(True, float)
          -- does not, so booleans land in the numeric branch with type "int".
          ([{ path := path, name := replaceDots path, type := "int" }], [])
      | .float _ => ([{ path := path, name := replaceDots path, type := "float" }], [])
      | .str s =>
          if s.length < 80 then ([], [{ path := path, name := replaceDots path }])
          else ([], [])
      | .obj _ => analyze_json_structure value path
      | .arr _ => analyze_json_structure value path
      | .null => ([], [])
    let restRes := analyze_json_fields rest pre
    (here.1 ++ restRes.1, here.2 ++ restRes.2)

end

mutual

/-- The inner `check_depth(obj, current_depth)` closure of
`ApiDiscovery._is_deeply_nested`; `max_depth` is the default 5, which no
caller overrides. -/
def check_depth (obj : Json) (current_depth : Nat) : Bool :=
  if 5 ≤ current_depth then true
  else
    match obj with
    | .obj fields => check_depth_fields fields current_depth
    | .arr (x :: _) => check_depth x (current_depth + 1)
    | _ => false

/-- `any(check_depth(value, current_depth + 1) for value in obj.values())`. -/
def check_depth_fields (fields : List (String × Json)) (current_depth : Nat) : Bool :=
  match fields with
  | [] => false
  | (_, v) :: rest =>
      check_depth v (current_depth + 1) || check_depth_fields rest current_depth

end

/-- `ApiDiscovery._is_deeply_nested(data)`: false for non-containers and for
empty containers at the root, otherwise the recursive depth check from depth 0. -/
def is_deeply_nested (data : Json) : Bool :=
  match data with
  | .obj [] => false
  | .arr [] => false
  | .obj fs => check_depth (.obj fs) 0
  | .arr xs => check_depth (.arr xs) 0
  | _ => false

/-! Depth measure characterising `check_depth`.  `firstSampleDepth` is the
length of the longest descent chain that follows every object value but only
the first element of each array — exactly the branches `check_depth` visits.
Empty containers and non-container leaves have depth 0. -/

mutual

def firstSampleDepth : Json → Nat
  | .obj [] => 0
  | .obj (f :: rest) => 1 + depthFieldsMax (f :: rest)
  | .arr (x :: _) => 1 + firstSampleDepth x
  | _ => 0

def depthFieldsMax : List (String × Json) → Nat
  | [] => 0
  | (_, v) :: rest => max (firstSampleDepth v) (depthFieldsMax rest)

end

mutual

def specReachesAux (v : Json) (d : Nat) : Bool :=
  if 5 ≤ d then true
  else
    match v with
    | .obj fs => specReachesFields fs d
    | .arr xs => specReachesElems xs d
    | _ => false

def specReachesFields : List (String × Json) → Nat → Bool
  | [], _ => false
  | (_, v) :: rest, d => specReachesAux v (d + 1) || specReachesFields rest d

def specReachesElems : List Json → Nat → Bool
  | [], _ => false
  | x :: rest, d => specReachesAux x (d + 1) || specReachesElems rest d

end

/-- Modelled from the claim wording for the deep-nesting check: some branch
of the value reaches depth at least 5 (root is depth 0), where **any**
element of an array — not only the first — may be followed.  This is the
reading asserted by the claim; it is compared against the source's
`is_deeply_nested` below. -/
def specReachesDepth5 (v : Json) : Bool :=
  specReachesAux v 0

/-! ## Sampling-driven discovery (`_discover_from_samples`) and the
orchestrator (`discover`). -/

/-- One entry of the configured endpoint list (`device_config["api"]["endpoints"]`). -/
structure SampleEndpoint where
  path : String
  method : String
deriving DecidableEq

/-- The relevant fields of `device_config["api"]` read by the orchestrator.
`username`, `password` and other credential fields feed only the Credential
Manager and are absorbed into its oracle. -/
structure ApiConfig where
  base_url : String
  auth_type : String
  verify_ssl : Bool
  swagger_url : Option String
  endpoints : Option (List SampleEndpoint)
  auth_endpoint : Option String

/-- Outcome of one sampled HTTP request, as seen by the loop body:
either the request raised (`requests.RequestException`, or a non-2xx status
via `raise_for_status`), or returned a body that fails JSON parsing, or
returned a parsed JSON document. -/
inductive HttpOutcome where
  | jsonOk (data : Json)
  | nonJson (content_type : String)
  | reqError (msg : String)

/-- Environment oracle for sampling: what the device answers for a request
to a given path with a given method. -/
def SampleEnv : Type := String → String → HttpOutcome

/-- An endpoint descriptor as appended to `api_structure["endpoints"]`.
Keys that a given status does not set are modelled with default values
(`metrics`/`tags` empty, flags false, optional strings `none`). -/
structure EndpointDesc where
  path : String
  method : String
  status : String
  metrics : List Metric := []
  tags : List Tag := []
  nested_json : Bool := false
  jsonv2_config : Option (List Metric × List Tag) := none
  content_type : Option String := none
  error : Option String := none

/-- Python `self.base_url.rstrip("/") + "/" + path.lstrip("/")`. -/
def joinUrl (base path : String) : String :=
  String.mk ((base.toList.reverse.dropWhile (fun c => c = '/')).reverse)
    ++ "/" ++ String.mk (path.toList.dropWhile (fun c => c = '/'))

/-- The skip test at the top of the sampling loop:
`self.auth_type == "token_from_auth" and
 self.device_config["api"].get("auth_endpoint") == path`
(`.get` returns `None` when the key is absent, and `None == path` is false). -/
def skipAsAuthEndpoint (authType : String) (authEndpoint : Option String)
    (path : String) : Bool :=
  authType == "token_from_auth" && authEndpoint == some path

/-- The request actually issued for an endpoint.  Only `GET` and `POST`
branches assign `response`; any other method leaves `response` unbound so
`response.raise_for_status()` raises a `NameError`, which the outer
`except Exception` turns into a failed endpoint without any HTTP request. -/
def outcomeOf (env : SampleEnv) (ep : SampleEndpoint) : HttpOutcome :=
  if ep.method == "GET" || ep.method == "POST" then env ep.path ep.method
  else .reqError "NameError: name response is not defined"

/-- Whether an endpoint's method leads to an HTTP request being issued. -/
def issuesRequest (ep : SampleEndpoint) : Bool :=
  ep.method == "GET" || ep.method == "POST"

/-- The descriptor built for one JSON-parsing endpoint response: metrics and
tags from the Structural Analyzer, the `nested_json` flag from
`_is_deeply_nested`, and the `jsonv2_config` projection when the payload is
deeply nested and metrics or tags were found. -/
def mkOkDesc (path method : String) (data : Json) : EndpointDesc :=
  let deep := is_deeply_nested data
  let mt := analyze_json_structure data ""
  { path := path, method := method, status := "ok",
    metrics := mt.1, tags := mt.2,
    nested_json := deep,
    jsonv2_config :=
      if deep && (decide (0 < mt.1.length) || decide (0 < mt.2.length)) then some mt
      else none }

/-- The descriptor appended for one non-skipped endpoint. -/
def endpointDesc (env : SampleEnv) (ep : SampleEndpoint) : EndpointDesc :=
  match outcomeOf env ep with
  | .jsonOk data => mkOkDesc ep.path ep.method data
  | .nonJson ct =>
      { path := ep.path, method := ep.method, status := "non-json",
        content_type := some ct }
  | .reqError msg =>
      { path := ep.path, method := ep.method, status := "error",
        error := some msg }

/-- Loop-carried results of `_discover_from_samples`: the descriptor list,
the stored samples, the two counters, plus a ghost trace `requested` of the
(path, method) pairs for which an HTTP request was issued.  `samples` keeps
the (path, body) pairs in loop order; the Python dict would additionally
collapse a duplicate path onto its later body, which no property here
observes. -/
structure SampleAcc where
  endpoints : List EndpointDesc
  samples : List (String × Json)
  requested : List (String × String)
  successful : Nat
  failed : Nat

/-- The `for endpoint in endpoints` loop of `_discover_from_samples`,
processed left to right.  A skipped endpoint contributes nothing; a JSON
response contributes an ok descriptor, a stored sample and a success count;
a non-JSON response contributes only a descriptor (neither counter moves);
a raised request contributes an error descriptor and a failure count. -/
def sampleLoop (authType : String) (authEndpoint : Option String)
    (env : SampleEnv) : List SampleEndpoint → SampleAcc
  | [] => { endpoints := [], samples := [], requested := [], successful := 0, failed := 0 }
  | ep :: rest =>
    let restAcc := sampleLoop authType authEndpoint env rest
    if skipAsAuthEndpoint authType authEndpoint ep.path then restAcc
    else
      let req : List (String × String) :=
        if issuesRequest ep then [(ep.path, ep.method)] else []
      match outcomeOf env ep with
      | .jsonOk data =>
          { endpoints := mkOkDesc ep.path ep.method data :: restAcc.endpoints,
            samples := (ep.path, data) :: restAcc.samples,
            requested := req ++ restAcc.requested,
            successful := restAcc.successful + 1,
            failed := restAcc.failed }
      | .nonJson ct =>
          { endpoints :=
              { path := ep.path, method := ep.method, status := "non-json",
                content_type := some ct } :: restAcc.endpoints,
            samples := restAcc.samples,
            requested := req ++ restAcc.requested,
            successful := restAcc.successful,
            failed := restAcc.failed }
      | .reqError msg =>
          { endpoints :=
              { path := ep.path, method := ep.method, status := "error",
                error := some msg } :: restAcc.endpoints,
            samples := restAcc.samples,
            requested := req ++ restAcc.requested,
            successful := restAcc.successful,
            failed := restAcc.failed + 1 }

/-- Result dict of `_discover_from_samples`: the accumulated loop state plus
the summary, whose `total_endpoints` is the length of the full configured
list (skipped endpoints included). -/
structure SamplesResult where
  endpoints : List EndpointDesc
  samples : List (String × Json)
  requested : List (String × String)
  total_endpoints : Nat
  successful_endpoints : Nat
  failed_endpoints : Nat

/-- The default endpoint list: a single root `GET` endpoint. -/
def defaultEndpoints : List SampleEndpoint := [{ path := "", method := "GET" }]

/-- `ApiDiscovery._discover_from_samples`. -/
def discover_from_samples (cfg : ApiConfig) (env : SampleEnv) : SamplesResult :=
  let endpoints := cfg.endpoints.getD defaultEndpoints
  let acc := sampleLoop cfg.auth_type cfg.auth_endpoint env endpoints
  { endpoints := acc.endpoints, samples := acc.samples, requested := acc.requested,
    total_endpoints := endpoints.length,
    successful_endpoints := acc.successful,
    failed_endpoints := acc.failed }

/-! ## Specification-driven discovery (`_discover_from_swagger`).

The fetch (`session.get`, `raise_for_status`, `response.json()`) is modelled
as an `Except String Json` oracle; everything after parsing is modelled
faithfully as `process_swagger_spec`.  The call to the OpenAPI validator is
wrapped in `try/except` and only logged, so it has no effect on the result
and is absorbed.  Any Python exception inside the processing (attribute
errors on non-dict values, type errors in membership tests) is an `Except`
error, which `discover` turns into the sampling fallback. -/

/-- An endpoint extracted from a specification document. -/
structure SwaggerEndpoint where
  path : String
  method : String
  description : Json
  tags : Json
  parameters : Json
  responseSchema : Option Json

/-- Result dict of `_discover_from_swagger`. -/
structure SwaggerResult where
  endpoints : List SwaggerEndpoint
  data_models : Json

/-- Python truthiness of a JSON value (`if not definitions:`). -/
def jsonTruthy : Json → Bool
  | .null => false
  | .bool b => b
  | .int n => n != 0
  | .float q => q != 0
  | .str s => !(s.isEmpty)
  | .arr xs => !xs.isEmpty
  | .obj fs => !fs.isEmpty

/-- `if "schema" in response_spec: ... response_spec["schema"]` for one
success-response spec.  For a dict this is a key test; for a string, `in`
is a substring test and the subsequent indexing would raise; for a list,
`in` is a membership test (string equality only holds against equal
strings) and the indexing would raise; for any other value `in` itself
raises `TypeError`. -/
def schemaOf (resp : Json) : Except String (Option Json) :=
  match resp with
  | .obj rf => .ok (rf.lookup "schema")
  | .str s =>
      if decide (List.IsInfix "schema".toList s.toList) then
        .error "TypeError: string indices must be integers"
      else .ok none
  | .arr xs =>
      if xs.any (fun j => match j with | .str t => t == "schema" | _ => false) then
        .error "TypeError: list indices must be integers"
      else .ok none
  | _ => .error "TypeError: argument is not iterable"

/-- The `for status, response_spec in operation.get("responses", dict()).items()`
loop: the last 2xx response carrying a schema wins. -/
def responsesSchema (resps : Json) : Except String (Option Json) :=
  match resps with
  | .obj rs =>
      rs.foldlM
        (fun (acc : Option Json) (kv : String × Json) =>
          if kv.1.startsWith "2" then
            match schemaOf kv.2 with
            | .error e => .error e
            | .ok (some s) => .ok (some s)
            | .ok none => .ok acc
          else .ok acc)
        (none : Option Json)
  | _ => .error "AttributeError: responses object has no attribute items"

/-- One `method, operation` pair of a path item: only `get`/`post` methods
(case-insensitively) produce an endpoint; the operation must be a dict for
the `.get` accesses to succeed. -/
def processOperation (path mkey : String) (op : Json) :
    Except String (Option SwaggerEndpoint) :=
  if mkey.toLower == "get" || mkey.toLower == "post" then
    match op with
    | .obj opf =>
        match responsesSchema ((opf.lookup "responses").getD (.obj [])) with
        | .error e => .error e
        | .ok schema =>
            .ok (some
              { path := path, method := mkey.toUpper,
                description := (opf.lookup "summary").getD (.str ""),
                tags := (opf.lookup "tags").getD (.arr []),
                parameters := (opf.lookup "parameters").getD (.arr []),
                responseSchema := schema })
    | _ => .error "AttributeError: operation has no attribute get"
  else .ok none

/-- The body of `_discover_from_swagger` after the fetch: iterate
`swagger_spec.get("paths", dict()).items()`, collect GET/POST endpoints in
order, then read `definitions`, falling back to `components.schemas` when
`definitions` is falsy. -/
def process_swagger_spec (spec : Json) : Except String SwaggerResult :=
  match spec with
  | .obj specFields =>
      match (specFields.lookup "paths").getD (.obj []) with
      | .obj pathFields =>
          match
            pathFields.foldlM
              (fun (acc : List SwaggerEndpoint) (kv : String × Json) =>
                match kv.2 with
                | .obj itemFields =>
                    itemFields.foldlM
                      (fun (acc2 : List SwaggerEndpoint) (mkv : String × Json) =>
                        match processOperation kv.1 mkv.1 mkv.2 with
                        | .error e => Except.error e
                        | .ok (some e) => Except.ok (acc2 ++ [e])
                        | .ok none => Except.ok acc2)
                      acc
                | _ =>
                    (Except.error "AttributeError: path item has no attribute items" :
                      Except String (List SwaggerEndpoint)))
              ([] : List SwaggerEndpoint)
          with
          | .error e => .error e
          | .ok endpoints =>
              let defs0 := (specFields.lookup "definitions").getD (.obj [])
              if jsonTruthy defs0 then
                .ok { endpoints := endpoints, data_models := defs0 }
              else
                match (specFields.lookup "components").getD (.obj []) with
                | .obj compFields =>
                    .ok { endpoints := endpoints,
                          data_models := (compFields.lookup "schemas").getD (.obj []) }
                | _ => .error "AttributeError: components has no attribute get"
      | _ => .error "AttributeError: paths object has no attribute items"
  | _ => .error "AttributeError: specification has no attribute get"

/-- The full specification-discovery attempt: a failed fetch or unparsable
body is an error before processing begins; otherwise the parsed document is
processed. -/
def discover_from_swagger (fetch : Except String Json) : Except String SwaggerResult :=
  match fetch with
  | .error e => .error e
  | .ok spec => process_swagger_spec spec

/-- The value returned by `ApiDiscovery.discover`: one of the three dict
shapes the Python method can return. -/
inductive ApiStructure where
  | authFailedS (endpoints : List EndpointDesc) (auth_failed : Bool) (error : Option String)
  | specS (r : SwaggerResult)
  | sampledS (r : SamplesResult)

/-- Number of endpoint descriptors in a discovery result (the "endpoint
coverage" of the claims). -/
def ApiStructure.endpointCount : ApiStructure → Nat
  | .authFailedS eps _ _ => eps.length
  | .specS r => r.endpoints.length
  | .sampledS r => r.endpoints.length

/-- `ApiDiscovery.discover`: auth failure short-circuits with the
minimal structure; otherwise a configured `swagger_url` selects
specification discovery with sampling as the fallback on any exception;
otherwise sampling directly. -/
def discover (cfg : ApiConfig) (auth_failed : Bool) (auth_error : Option String)
    (fetch : Except String Json) (env : SampleEnv) : ApiStructure :=
  if auth_failed then .authFailedS [] true auth_error
  else
    match cfg.swagger_url with
    | some _ =>
        match discover_from_swagger fetch with
        | .ok r => .specS r
        | .error _ => .sampledS (discover_from_samples cfg env)
    | none => .sampledS (discover_from_samples cfg env)

/-! ## OpenID-Connect credential flow (`_get_openid_token`,
`_refresh_openid_token`, `_load_token_store`, `_save_token_store`).

HTTP token calls are an environment oracle indexed by how many calls of
that kind were made so far; each outcome is either an exception/non-2xx
(`GrantResult.err`) or a parsed JSON body, of which only the three fields
the code reads are kept (`access_token`, `refresh_token`, `expires_in`,
each possibly absent).  `time.time()` is the parameter `now`, held fixed
within one flow, and timestamps are whole seconds.

The mutual recursion between refresh failure and full re-authentication is
made total with a `fuel` parameter: a result of `none` means the Python
call chain did not return within `fuel` nested calls — returning `none`
for every fuel value is the fuel semantics of non-termination. -/

/-- A persisted token record (one value of the token-store JSON object).
`refresh_token` is `none` when the stored value is JSON null; the key
itself is always written by this code, which is why the
`"refresh_token" in token_data` test in `_get_openid_token` succeeds for
every record the engine itself stored. -/
structure TokenRecord where
  access_token : String
  refresh_token : Option String
  expires_at : Nat
  token_url : String
  client_id : String

/-- Outcome of a token-endpoint POST: an exception (connection error or
`raise_for_status` or JSON decode), or a body with the fields the code
reads; `none` models an absent key. -/
inductive GrantResult where
  | err (msg : String)
  | ok (access_token : Option String) (refresh_token : Option String)
      (expires_in : Option Nat)

/-- Environment oracle for the OIDC flow: the outcome of the n-th
refresh-token grant and the n-th password grant. -/
structure OidcEnv where
  refresh : Nat → GrantResult
  password : Nat → GrantResult

/-- Configuration fields of the OIDC flow; `username`/`password` (and the
environment-variable indirection for the password) only shape the request
payload, which the oracle absorbs. -/
structure OidcConfig where
  base_url : String
  auth_endpoint : String
  openid_client_id : Option String
  openid_scope : Option String

/-- Mutable state of the flow: the persisted store file (`none` when the
file does not exist), the in-memory `self.token_store`, `self.auth_token`,
and ghost counters of issued refresh and password grants that index the
oracle. -/
structure OidcState where
  disk : Option (List (String × TokenRecord))
  mem : List (String × TokenRecord)
  auth_token : Option String
  refresh_calls : Nat
  password_calls : Nat

/-- Python dict assignment `self.token_store[device_name] = record`:
replace in place if the key exists, else append. -/
def storeSet : List (String × TokenRecord) → String → TokenRecord →
    List (String × TokenRecord)
  | [], k, v => [(k, v)]
  | kv :: rest, k, v =>
      if kv.1 == k then (k, v) :: rest else kv :: storeSet rest k v

/-- The password-grant tail of `_get_openid_token` (from "Otherwise, get a
new token" to the end).  A raised request or a response without
`access_token` leaves the state unchanged apart from the call counter (the
method logs and returns; the surrounding `try` in `_setup_auth` is not
reached because `_get_openid_token` swallows its own exceptions). -/
def passwordGrant (env : OidcEnv) (now : Nat) (device : String)
    (cfg : OidcConfig) (st : OidcState) : OidcState :=
  let token_url := joinUrl cfg.base_url cfg.auth_endpoint
  let result := env.password st.password_calls
  let st := { st with password_calls := st.password_calls + 1 }
  match result with
  | .ok (some access_token) refresh_token expires_in =>
      let record : TokenRecord :=
        { access_token := access_token,
          refresh_token := refresh_token,
          expires_at := now + expires_in.getD 300,
          token_url := token_url,
          client_id := cfg.openid_client_id.getD "webui" }
      let mem := storeSet st.mem device record
      { st with mem := mem, disk := some mem, auth_token := some access_token }
  | .ok none _ _ => st
  | .err _ => st

mutual

/-- `ApiDiscovery._get_openid_token`, with `fuel` bounding the depth
of the mutual recursion with `_refresh_openid_token`. -/
def get_openid_token (fuel : Nat) (env : OidcEnv) (now : Nat) (device : String)
    (cfg : OidcConfig) (st : OidcState) : Option OidcState :=
  match fuel with
  | 0 => none
  | fuel + 1 =>
    -- _load_token_store: replace the in-memory store when the file exists
    let st := { st with mem := st.disk.getD st.mem }
    match st.mem.lookup device with
    | some token_data =>
        if now + 60 < token_data.expires_at then
          -- access token still valid (60-second buffer): reuse it
          some { st with auth_token := some token_data.access_token }
        else
          -- expired: the refresh_token key is present on every record this
          -- engine writes, so the elif branch is taken
          refresh_openid_token fuel env now device cfg token_data st
    | none => some (passwordGrant env now device cfg st)
termination_by (fuel, 0)

/-- `ApiDiscovery._refresh_openid_token(token_data)`. -/
def refresh_openid_token (fuel : Nat) (env : OidcEnv) (now : Nat)
    (device : String) (cfg : OidcConfig) (token_data : TokenRecord)
    (st : OidcState) : Option OidcState :=
  let result := env.refresh st.refresh_calls
  let st := { st with refresh_calls := st.refresh_calls + 1 }
  match result with
  | .ok (some access_token) new_refresh expires_in =>
      let record : TokenRecord :=
        { access_token := access_token,
          -- use the old refresh token if the response does not provide one
          refresh_token :=
            match new_refresh with
            | some r => some r
            | none => token_data.refresh_token,
          expires_at := now + expires_in.getD 300,
          token_url := token_data.token_url,
          client_id := token_data.client_id }
      let mem := storeSet st.mem device record
      some { st with mem := mem, disk := some mem, auth_token := some access_token }
  | .ok none _ _ =>
      -- "No access token found in refresh response": log and return
      some st
  | .err _ =>
      -- "Token refresh failed, reverting to full authentication"
      get_openid_token fuel env now device cfg st
termination_by (fuel, 1)

end

/-! ## Helper lemmas -/

/-- Whether an endpoint is processed (not skipped as the auth endpoint). -/
def keptEndpoint (authType : String) (authEndpoint : Option String)
    (ep : SampleEndpoint) : Bool :=
  !skipAsAuthEndpoint authType authEndpoint ep.path

/-- Whether the sampled outcome is a parsed JSON body. -/
def outcomeIsJson (env : SampleEnv) (ep : SampleEndpoint) : Bool :=
  match outcomeOf env ep with
  | .jsonOk _ => true
  | _ => false

/-- Whether the sampled outcome is a raised request. -/
def outcomeIsError (env : SampleEnv) (ep : SampleEndpoint) : Bool :=
  match outcomeOf env ep with
  | .reqError _ => true
  | _ => false

/-! Concrete scenario for the refresh-fallback recursion: the store file
holds a record for the device that is expired (now = 1000, expires_at = 100)
and carries a refresh token, and every refresh-token grant fails.  The
password grant is configured to succeed, but the flow never reaches it. -/

def expiredRecord : TokenRecord :=
  { access_token := "stale", refresh_token := some "r0", expires_at := 100,
    token_url := "https://dev1/token", client_id := "webui" }

def oidcStuckEnv : OidcEnv :=
  { refresh := fun _ => .err "400 Bad Request: invalid refresh token",
    password := fun _ => .ok (some "fresh-access") (some "fresh-refresh") (some 60) }

def oidcCfgEx : OidcConfig :=
  { base_url := "https://dev1", auth_endpoint := "token",
    openid_client_id := none, openid_scope := none }

def oidcStuckState : OidcState :=
  { disk := some [("dev1", expiredRecord)], mem := [], auth_token := none,
    refresh_calls := 0, password_calls := 0 }

/-! ## Concrete scenarios used by counterexamples and witnesses -/

/-- An environment in which every sampled endpoint answers with the JSON
body containing the single numeric field "v". -/
def envAllJson : SampleEnv := fun _ _ => .jsonOk (.obj [("v", .int 1)])

/-- An environment in which every sampled endpoint answers 200 with a
non-JSON body. -/
def envNonJson : SampleEnv := fun _ _ => .nonJson "text/html"

/-- A `token_from_auth` device whose single configured sample endpoint is
its own auth endpoint. -/
def cfgAuthEpOnly : ApiConfig :=
  { base_url := "http://d", auth_type := "token_from_auth", verify_ssl := true,
    swagger_url := none,
    endpoints := some [{ path := "/login", method := "GET" }],
    auth_endpoint := some "/login" }

/-- A `token_from_auth` device with its auth endpoint plus one ordinary
metrics endpoint in the sample list. -/
def cfgAuthEpAndMetrics : ApiConfig :=
  { base_url := "http://d", auth_type := "token_from_auth", verify_ssl := true,
    swagger_url := none,
    endpoints := some [{ path := "/login", method := "GET" },
                       { path := "/metrics", method := "GET" }],
    auth_endpoint := some "/login" }

/-- An unauthenticated device with one configured endpoint and no
specification URL. -/
def cfgPlain : ApiConfig :=
  { base_url := "http://d", auth_type := "none", verify_ssl := true,
    swagger_url := none,
    endpoints := some [{ path := "/m", method := "GET" }],
    auth_endpoint := none }

/-- A parsable specification document with no `paths` section at all. -/
def fetchEmptyDoc : Except String Json := Except.ok (Json.obj [])

/-- A value whose leaf lies six levels deep; placed as the second element
of an array it is invisible to `check_depth`, which samples only the first
element. -/
def deepSecondElem : Json :=
  Json.arr [Json.int 0,
    Json.obj [("a", Json.obj [("b", Json.obj [("c",
      Json.obj [("d", Json.obj [("e", Json.int 1)])])])])]]

/-- An OIDC environment whose refresh grant always succeeds with a new
access token, no new refresh token and no `expires_in`. -/
def oidcRefreshOkEnv : OidcEnv :=
  { refresh := fun _ => .ok (some "tkn2") none none,
    password := fun _ => .err "unused" }

/-- An OIDC state whose in-memory store already holds the expired record
(as `_get_openid_token` leaves it just before calling the refresh). -/
def oidcMemState : OidcState :=
  { disk := none, mem := [("dev1", expiredRecord)], auth_token := none,
    refresh_calls := 0, password_calls := 0 }

/-- The record `_refresh_openid_token` writes in the `oidcRefreshOkEnv`
scenario: new access token, old refresh token retained, `expires_at` =
now + 300 (the default), `token_url` and `client_id` carried over. -/
def refreshedRecord : TokenRecord :=
  { access_token := "tkn2", refresh_token := some "r0", expires_at := 1300,
    token_url := "https://dev1/token", client_id := "webui" }

/-- An 80-character string (for the long-string leaf witness). -/
def longString80 : String :=
  "0123456789012345678901234567890123456789012345678901234567890123456789qwertzuiop"

/-! ## Helper theorems and sanity examples -/

example : analyze_json_structure (.obj [("cpu", .obj [("load", .float (1/2))])]) "" =
    ([{ path := "cpu.load", name := "cpu_load", type := "float" }], []) := rfl

example : analyze_json_structure (.obj [("flag", .bool true)]) "" =
    ([{ path := "flag", name := "flag", type := "int" }], []) := rfl

example : is_deeply_nested (.obj [("a", .obj [("b", .obj [("c", .obj [("d", .obj [("e", .int 1)])])])])]) = true := rfl

example : is_deeply_nested (.obj [("a", .obj [("b", .obj [("c", .int 1)])])]) = false := rfl

theorem mem_depth_le_depthFieldsMax {fs : List (String × Json)} {kv : String × Json}
    (h : kv ∈ fs) : firstSampleDepth kv.2 ≤ depthFieldsMax fs := by
  induction fs with
  | nil => cases h
  | cons a t ih =>
    rcases a with ⟨k, v⟩
    rcases List.mem_cons.mp h with rfl | hm
    · simp [depthFieldsMax]
    · have := ih hm
      simp only [depthFieldsMax]
      omega

theorem depthFieldsMax_attained :
    ∀ fs : List (String × Json), fs ≠ [] →
      ∃ kv ∈ fs, depthFieldsMax fs ≤ firstSampleDepth kv.2 := by
  intro fs
  induction fs with
  | nil => intro h; cases h rfl
  | cons a t ih =>
    intro _
    rcases a with ⟨k, v⟩
    by_cases ht : t = []
    · subst ht
      exact ⟨(k, v), by simp, by simp [depthFieldsMax]⟩
    · obtain ⟨kv, hmem, hle⟩ := ih ht
      rcases Nat.le_total (firstSampleDepth v) (depthFieldsMax t) with h1 | h1
      · refine ⟨kv, List.mem_cons_of_mem _ hmem, ?_⟩
        simp only [depthFieldsMax]
        omega
      · refine ⟨(k, v), List.mem_cons_self _ _, ?_⟩
        simp only [depthFieldsMax]
        omega

/-- `check_depth` returns true exactly when the first-sample descent depth
added to the starting depth reaches 5: the guard `current_depth >= max_depth`
is tested before the value is inspected, so any value sitting at depth 5
(leaves and empty containers included) makes the check true. -/
theorem check_depth_iff (v : Json) (d : Nat) :
    check_depth v d = true ↔ 5 ≤ d + firstSampleDepth v := by
  refine check_depth.induct
    (fun v d => check_depth v d = true ↔ 5 ≤ d + firstSampleDepth v)
    (fun fs d => check_depth_fields fs d = true ↔
      ∃ kv ∈ fs, 5 ≤ d + 1 + firstSampleDepth kv.2)
    ?_ ?_ ?_ ?_ ?_ ?_ v d
  · intro t d hd
    rw [check_depth.eq_def]
    simp only [if_pos hd]
    constructor
    · intro _; omega
    · intro _; trivial
  · intro d hd fs ih
    rw [check_depth.eq_def]
    simp only [if_neg hd]
    match fs with
    | [] =>
      rw [check_depth_fields.eq_def] at ih
      simp only [firstSampleDepth]
      constructor
      · intro h; cases h
      · intro h; omega
    | f :: r =>
      rw [ih]
      simp only [firstSampleDepth]
      constructor
      · rintro ⟨kv, hmem, hle⟩
        have := mem_depth_le_depthFieldsMax hmem
        omega
      · intro h
        obtain ⟨kv, hmem, hle⟩ := depthFieldsMax_attained (f :: r) (by simp)
        exact ⟨kv, hmem, by omega⟩
  · intro d hd x t ih
    rw [check_depth.eq_def]
    simp only [if_neg hd]
    rw [ih]
    simp only [firstSampleDepth]
    omega
  · intro t d hd hobj harr
    have hz : firstSampleDepth t = 0 := by
      cases t with
      | null => rfl
      | bool b => rfl
      | int n => rfl
      | float q => rfl
      | str s => rfl
      | arr xs =>
        cases xs with
        | nil => rfl
        | cons x r => exact absurd rfl (harr x r)
      | obj fs => exact absurd rfl (hobj fs)
    have hc : check_depth t d = false := by
      rw [check_depth.eq_def]
      -- the match default-case equation discharges its side conditions
      -- from hobj and harr
      simp only [if_neg hd]
    rw [hc, hz]
    constructor
    · intro h; cases h
    · intro h; omega
  · intro d
    rw [check_depth_fields.eq_def]
    simp
  · intro d key value rest ih1 ih2
    rw [check_depth_fields.eq_def]
    simp only [Bool.or_eq_true]
    rw [ih1, ih2]
    constructor
    · rintro (h | ⟨kv, hmem, hle⟩)
      · exact ⟨(key, value), List.mem_cons_self _ _, h⟩
      · exact ⟨kv, List.mem_cons_of_mem _ hmem, hle⟩
    · rintro ⟨kv, hmem, hle⟩
      rcases List.mem_cons.mp hmem with rfl | hm
      · exact Or.inl hle
      · exact Or.inr ⟨kv, hm, hle⟩

theorem sampleLoop_spec (authType : String) (authEndpoint : Option String)
    (env : SampleEnv) (l : List SampleEndpoint) :
    (sampleLoop authType authEndpoint env l).endpoints =
      (l.filter (keptEndpoint authType authEndpoint)).map (endpointDesc env)
    ∧ (sampleLoop authType authEndpoint env l).requested =
      ((l.filter (keptEndpoint authType authEndpoint)).filter issuesRequest).map
        (fun ep => (ep.path, ep.method))
    ∧ (sampleLoop authType authEndpoint env l).successful =
      ((l.filter (keptEndpoint authType authEndpoint)).filter (outcomeIsJson env)).length
    ∧ (sampleLoop authType authEndpoint env l).failed =
      ((l.filter (keptEndpoint authType authEndpoint)).filter (outcomeIsError env)).length := by
  induction l with
  | nil => simp [sampleLoop]
  | cons ep rest ih =>
    obtain ⟨ih1, ih2, ih3, ih4⟩ := ih
    by_cases hskip : skipAsAuthEndpoint authType authEndpoint ep.path
    · simp [sampleLoop, hskip, keptEndpoint, ih1, ih2, ih3, ih4]
    · rcases houtcome : outcomeOf env ep with data | ct | msg
      · refine ⟨?_, ?_, ?_, ?_⟩ <;>
          simp [sampleLoop, hskip, keptEndpoint, endpointDesc, houtcome,
            outcomeIsJson, outcomeIsError, issuesRequest, ih1, ih2, ih3, ih4,
            List.filter_cons]
        · -- a jsonOk outcome implies the request was issued
          have : issuesRequest ep = true := by
            by_contra hni
            simp [outcomeOf, issuesRequest] at houtcome hni
            simp [hni.1, hni.2] at houtcome
          simp [issuesRequest] at this
          simp [this]
      · refine ⟨?_, ?_, ?_, ?_⟩ <;>
          simp [sampleLoop, hskip, keptEndpoint, endpointDesc, houtcome,
            outcomeIsJson, outcomeIsError, issuesRequest, ih1, ih2, ih3, ih4,
            List.filter_cons]
        · have : issuesRequest ep = true := by
            by_contra hni
            simp [outcomeOf, issuesRequest] at houtcome hni
            simp [hni.1, hni.2] at houtcome
          simp [issuesRequest] at this
          simp [this]
      · refine ⟨?_, ?_, ?_, ?_⟩ <;>
          simp [sampleLoop, hskip, keptEndpoint, endpointDesc, houtcome,
            outcomeIsJson, outcomeIsError, issuesRequest, ih1, ih2, ih3, ih4,
            List.filter_cons]
        · split <;> simp

theorem analyze_names_ok (data : Json) (pre : String) :
    ((analyze_json_structure data pre).1.all (fun m => m.name == replaceDots m.path)
      && (analyze_json_structure data pre).2.all (fun t => t.name == replaceDots t.path)) = true := by
  refine analyze_json_structure.induct
    (fun d p =>
      ((analyze_json_structure d p).1.all (fun m => m.name == replaceDots m.path)
        && (analyze_json_structure d p).2.all (fun t => t.name == replaceDots t.path)) = true)
    (fun fs p =>
      ((analyze_json_fields fs p).1.all (fun m => m.name == replaceDots m.path)
        && (analyze_json_fields fs p).2.all (fun t => t.name == replaceDots t.path)) = true)
    ?_ ?_ ?_ ?_ ?_ data pre
  · intro p fields ih
    rw [analyze_json_structure.eq_def]
    simpa using ih
  · intro p sample tail ih
    rw [analyze_json_structure.eq_def]
    simpa using ih
  · intro t p hobj harr
    rw [analyze_json_structure.eq_def]
    cases t with
    | null => simp
    | bool b => simp
    | int n => simp
    | float q => simp
    | str s => simp
    | arr xs =>
      cases xs with
      | nil => simp
      | cons x r => exact absurd rfl (harr x r)
    | obj fs => exact absurd rfl (hobj fs)
  · intro p
    rw [analyze_json_fields.eq_def]
    simp
  · intro p key value rest path ih1 ih2
    rw [analyze_json_fields.eq_def]
    simp only [Bool.and_eq_true, List.all_append] at ih1 ih2 ⊢
    cases value with
    | null => simpa using ih2
    | bool b => simpa using ih2
    | int n => simpa using ih2
    | float q => simpa using ih2
    | str s =>
      by_cases hlen : s.length < 80
      · simpa [hlen] using ih2
      · simpa [hlen] using ih2
    | arr xs => simp_all [List.all_append]
    | obj fs => simp_all [List.all_append]

theorem storeSet_lookup (s : List (String × TokenRecord)) (k : String) (v : TokenRecord) :
    (storeSet s k v).lookup k = some v := by
  induction s with
  | nil => simp [storeSet, List.lookup]
  | cons kv rest ih =>
    by_cases h : kv.1 = k
    · simp [storeSet, h, List.lookup]
    · have h1 : (kv.1 == k) = false := beq_eq_false_iff_ne.mpr h
      have h2 : (k == kv.1) = false := beq_eq_false_iff_ne.mpr (fun e => h e.symm)
      simp [storeSet, h1, List.lookup, h2, ih]

theorem oidc_stuck_aux (fuel : Nat) :
    ∀ st : OidcState, st.disk = some [("dev1", expiredRecord)] →
      get_openid_token fuel oidcStuckEnv 1000 "dev1" oidcCfgEx st = none := by
  induction fuel with
  | zero =>
    intro st h
    rw [get_openid_token.eq_def]
  | succ n ih =>
    intro st h
    rw [get_openid_token.eq_def]
    simp only [h, Option.getD_some, List.lookup, beq_self_eq_true]
    have hlt : ¬ (1000 + 60 < expiredRecord.expires_at) := by
      simp only [expiredRecord]
      omega
    rw [if_neg hlt]
    rw [refresh_openid_token.eq_def]
    simp only [oidcStuckEnv]
    exact ih _ rfl

theorem analyze_fields_inert (pre k : String) (v : Json)
    (hv : v = Json.null ∨ ∃ s, v = Json.str s ∧ 80 ≤ s.length) :
    ∀ fs1 fs2 : List (String × Json),
      analyze_json_fields (fs1 ++ (k, v) :: fs2) pre =
        analyze_json_fields (fs1 ++ fs2) pre := by
  intro fs1
  induction fs1 with
  | nil =>
    intro fs2
    simp only [List.nil_append]
    rw [analyze_json_fields.eq_def]
    rcases hv with rfl | ⟨s, rfl, hlen⟩
    · simp
    · have : ¬ s.length < 80 := by omega
      simp [this]
  | cons a t ih =>
    intro fs2
    simp only [List.cons_append]
    rw [analyze_json_fields.eq_def]
    conv_rhs => rw [analyze_json_fields.eq_def]
    rcases a with ⟨ka, va⟩
    simp only [ih]

theorem endpointDesc_path (env : SampleEnv) (ep : SampleEndpoint) :
    (endpointDesc env ep).path = ep.path := by
  rcases h : outcomeOf env ep with data | ct | msg <;> simp [endpointDesc, h, mkOkDesc]

/-! ## Claims -/

/-- Claim C1.  The claim states that a failed refresh-token grant triggers
exactly one full re-authentication attempt and that the fallback never
recurses further.  The code does the opposite: the refresh-failure handler
of `_refresh_openid_token` calls `_get_openid_token`, which re-loads the
same expired record (still carrying its refresh token, since the failed
refresh stored nothing) and calls `_refresh_openid_token` again — an
unbounded mutual recursion in which the password grant is never even
reached.  Formally: with a persisted expired record and an environment
whose refresh grant always fails (and whose password grant would succeed),
the flow fails to return for every fuel bound. -/
theorem c1_refresh_fallback_unbounded :
    ∀ fuel : Nat,
      get_openid_token fuel oidcStuckEnv 1000 "dev1" oidcCfgEx oidcStuckState = none :=
  fun fuel => oidc_stuck_aux fuel oidcStuckState rfl

/-- Claim C2, counterexample.  The claim says a boolean leaf produces
neither a Metric nor a Tag; but Python's `bool` is a subclass of `int`, so
`isinstance(value, (int, float))` matches booleans and
`_analyze_json_structure` emits an int Metric for the boolean object value
`true`. -/
theorem c2_counterexample :
    analyze_json_structure (Json.obj [("flag", Json.bool true)]) "" =
      ([{ path := "flag", name := "flag", type := "int" }], [])
    ∧ (analyze_json_structure (Json.obj [("flag", Json.bool true)]) "").1 ≠ [] :=
  ⟨rfl, by decide⟩

/-- Claim C2, amended: a leaf value that is null or a string of length 80
or more produces neither a Metric nor a Tag at any path (removing such a
field from any object, under any prefix, leaves the analyzer output
unchanged); a boolean leaf, however, produces a Metric of type "int"
because Python booleans are instances of `int`. -/
theorem c2_amended (pre k : String) (fs1 fs2 : List (String × Json)) :
    (analyze_json_fields (fs1 ++ (k, Json.null) :: fs2) pre =
      analyze_json_fields (fs1 ++ fs2) pre)
    ∧ (∀ s : String, 80 ≤ s.length →
        analyze_json_fields (fs1 ++ (k, Json.str s) :: fs2) pre =
          analyze_json_fields (fs1 ++ fs2) pre)
    ∧ (∀ b : Bool, analyze_json_fields [(k, Json.bool b)] pre =
        ([{ path := pathJoin pre k, name := replaceDots (pathJoin pre k),
            type := "int" }], [])) := by
  refine ⟨analyze_fields_inert pre k Json.null (Or.inl rfl) fs1 fs2, ?_, ?_⟩
  · intro s hs
    exact analyze_fields_inert pre k (Json.str s) (Or.inr ⟨s, rfl, hs⟩) fs1 fs2
  · intro b
    rw [analyze_json_fields.eq_def]
    simp [analyze_json_fields]

/-- Claim C2 witness: the amended theorem applied at a concrete 80-character
string and a concrete object. -/
theorem c2_witness :
    80 ≤ longString80.length
    ∧ analyze_json_fields ([("a", Json.int 1)] ++ ("x", Json.str longString80) :: []) ""
        = analyze_json_fields ([("a", Json.int 1)] ++ []) "" :=
  ⟨by decide, (c2_amended "" "x" [("a", Json.int 1)] []).2.1 longString80 (by decide)⟩

/-- Claim C3, counterexample.  The claim says every endpoint of the input
list yields exactly one descriptor; but an endpoint skipped as the
`token_from_auth` auth endpoint yields none: with the single configured
endpoint equal to the auth endpoint the output list is empty. -/
theorem c3_counterexample :
    (discover_from_samples cfgAuthEpOnly envAllJson).endpoints.length = 0
    ∧ (cfgAuthEpOnly.endpoints.getD defaultEndpoints).length = 1 :=
  ⟨rfl, rfl⟩

/-- Claim C3, amended: every endpoint of the input list **except those
skipped as the `token_from_auth` auth endpoint** yields exactly one
descriptor, in input order — the output is exactly the input list filtered
by the skip test and mapped to its per-endpoint descriptor. -/
theorem c3_amended (cfg : ApiConfig) (env : SampleEnv) :
    (discover_from_samples cfg env).endpoints =
      ((cfg.endpoints.getD defaultEndpoints).filter
        (keptEndpoint cfg.auth_type cfg.auth_endpoint)).map (endpointDesc env) :=
  (sampleLoop_spec cfg.auth_type cfg.auth_endpoint env
    (cfg.endpoints.getD defaultEndpoints)).1

/-- Claim C4.  When the Credential Manager has recorded an authentication
failure, `discover` returns the minimal structure — empty endpoint list,
`auth_failed` true, and the captured error — and the result does not
depend on the specification fetch or on the sampling environment (no
network discovery is performed). -/
theorem c4_auth_failed_short_circuit (cfg : ApiConfig) (err : Option String)
    (fetch fetch2 : Except String Json) (env env2 : SampleEnv) :
    discover cfg true err fetch env = ApiStructure.authFailedS [] true err
    ∧ discover cfg true err fetch env = discover cfg true err fetch2 env2 :=
  ⟨rfl, rfl⟩

/-- Claim C5, counterexample.  The claim says any element of an array can
make the deep-nesting check true; but `check_depth` descends only into the
first element of a list (`check_depth(obj[0], ...)`): a six-deep value in
the second position is invisible to the code although the claim's
any-branch reading (`specReachesDepth5`) counts it. -/
theorem c5_counterexample :
    is_deeply_nested deepSecondElem = false
    ∧ specReachesDepth5 deepSecondElem = true :=
  ⟨rfl, rfl⟩

/-- Claim C5, amended: the deep-nesting check returns true iff the descent
that follows every object value but **only the first element of each
array** reaches depth 5 (root at depth 0, empty containers and leaves
adding no depth of their own); and the check's result does not alter the
metrics and tags of the ok-descriptor, which are always exactly the
analyzer's output. -/
theorem c5_amended :
    (∀ v : Json, is_deeply_nested v = true ↔ 5 ≤ firstSampleDepth v)
    ∧ (∀ (p m : String) (d : Json),
        (mkOkDesc p m d).metrics = (analyze_json_structure d "").1
        ∧ (mkOkDesc p m d).tags = (analyze_json_structure d "").2) := by
  constructor
  · intro v
    cases v with
    | null => simp [is_deeply_nested, firstSampleDepth]
    | bool b => simp [is_deeply_nested, firstSampleDepth]
    | int n => simp [is_deeply_nested, firstSampleDepth]
    | float q => simp [is_deeply_nested, firstSampleDepth]
    | str s => simp [is_deeply_nested, firstSampleDepth]
    | arr xs =>
      cases xs with
      | nil => simp [is_deeply_nested, firstSampleDepth]
      | cons x r =>
        have h := check_depth_iff (Json.arr (x :: r)) 0
        simpa [is_deeply_nested] using h
    | obj fs =>
      cases fs with
      | nil => simp [is_deeply_nested, firstSampleDepth]
      | cons f r =>
        have h := check_depth_iff (Json.obj (f :: r)) 0
        simpa [is_deeply_nested] using h
  · intro p m d
    exact ⟨rfl, rfl⟩

/-- Claim C6, counterexample.  The claim says any specification-discovery
failure — including unusable paths — yields the same endpoint coverage as
having no `swagger_url`; but a parsable document with no `paths` section
is processed without an exception into a specification result with an
empty endpoint list and **no fallback**, while the same device without
`swagger_url` samples its one endpoint. -/
theorem c6_counterexample :
    discover { cfgPlain with swagger_url := some "http://d/spec" } false none
        fetchEmptyDoc envAllJson
      = ApiStructure.specS { endpoints := [], data_models := Json.obj [] }
    ∧ (discover { cfgPlain with swagger_url := some "http://d/spec" } false none
        fetchEmptyDoc envAllJson).endpointCount = 0
    ∧ (discover cfgPlain false none fetchEmptyDoc envAllJson).endpointCount = 1 :=
  ⟨rfl, rfl, rfl⟩

/-- Claim C6, amended: when the specification attempt **raises** — fetch
error, unparsable body, or a document shape that raises during processing —
`discover` returns exactly the sampling result, identical to the same
configuration without `swagger_url`; a parsable document is used as-is even
when it contains no usable paths, without fallback. -/
theorem c6_amended (cfg : ApiConfig) (u : String) (env : SampleEnv)
    (fetch : Except String Json) (e : String)
    (h : discover_from_swagger fetch = Except.error e) :
    discover { cfg with swagger_url := some u } false none fetch env
      = ApiStructure.sampledS (discover_from_samples cfg env)
    ∧ discover { cfg with swagger_url := none } false none fetch env
      = ApiStructure.sampledS (discover_from_samples cfg env) := by
  constructor
  · simp only [discover, h]
    rfl
  · rfl

/-- Claim C6 witness: the amended theorem applied to a concrete connection
failure. -/
theorem c6_witness :
    discover { cfgPlain with swagger_url := some "http://d/spec" } false none
        (Except.error "ConnectionError: connection refused") envAllJson
      = ApiStructure.sampledS (discover_from_samples cfgPlain envAllJson)
    ∧ discover { cfgPlain with swagger_url := none } false none
        (Except.error "ConnectionError: connection refused") envAllJson
      = ApiStructure.sampledS (discover_from_samples cfgPlain envAllJson) :=
  c6_amended cfgPlain "http://d/spec" envAllJson
    (Except.error "ConnectionError: connection refused")
    "ConnectionError: connection refused" rfl

/-- Claim C7.  For a `token_from_auth` device, a configured sample endpoint
whose path equals the configured auth endpoint never contributes a
descriptor and no request is issued for that path: the skip happens before
the URL is even built. -/
theorem c7_auth_endpoint_never_sampled (cfg : ApiConfig) (env : SampleEnv)
    (p : String) (h1 : cfg.auth_type = "token_from_auth")
    (h2 : cfg.auth_endpoint = some p) :
    ((discover_from_samples cfg env).endpoints.all (fun d => !(d.path == p))) = true
    ∧ ((discover_from_samples cfg env).requested.all (fun q => !(q.1 == p))) = true := by
  obtain ⟨e1, e2, -, -⟩ :=
    sampleLoop_spec cfg.auth_type cfg.auth_endpoint env
      (cfg.endpoints.getD defaultEndpoints)
  have kept_ne : ∀ ep : SampleEndpoint,
      keptEndpoint cfg.auth_type cfg.auth_endpoint ep = true → ep.path ≠ p := by
    intro ep hk hpath
    simp [keptEndpoint, skipAsAuthEndpoint, h1, h2, hpath] at hk
  constructor
  · have : (discover_from_samples cfg env).endpoints =
        ((cfg.endpoints.getD defaultEndpoints).filter
          (keptEndpoint cfg.auth_type cfg.auth_endpoint)).map (endpointDesc env) := e1
    rw [this]
    simp only [List.all_eq_true]
    intro d hd
    obtain ⟨ep, hep, rfl⟩ := List.mem_map.mp hd
    have hk := List.of_mem_filter hep
    have := kept_ne ep hk
    simp [endpointDesc_path]
    exact fun habs => this habs
  · have : (discover_from_samples cfg env).requested =
        (((cfg.endpoints.getD defaultEndpoints).filter
          (keptEndpoint cfg.auth_type cfg.auth_endpoint)).filter issuesRequest).map
          (fun ep => (ep.path, ep.method)) := e2
    rw [this]
    simp only [List.all_eq_true]
    intro q hq
    obtain ⟨ep, hep, rfl⟩ := List.mem_map.mp hq
    have hk := List.of_mem_filter (List.mem_of_mem_filter hep)
    have := kept_ne ep hk
    simpa using this

/-- Claim C7 witness: the theorem applied to a concrete `token_from_auth`
device whose sample list contains the auth endpoint and one ordinary
endpoint. -/
theorem c7_witness :
    ((discover_from_samples cfgAuthEpAndMetrics envAllJson).endpoints.all
      (fun d => !(d.path == "/login"))) = true
    ∧ ((discover_from_samples cfgAuthEpAndMetrics envAllJson).requested.all
      (fun q => !(q.1 == "/login"))) = true :=
  c7_auth_endpoint_never_sampled cfgAuthEpAndMetrics envAllJson "/login" rfl rfl

/-- Claim C8, counterexample.  The claim says the name flattens **both**
dot separators and the bracket suffix to underscores; but the code computes
`path.replace(".", "_")` only: the metric for the array-sampled field keeps
its bracket suffix `[*]` verbatim in `name`. -/
theorem c8_counterexample :
    analyze_json_structure
        (Json.obj [("items", Json.arr [Json.obj [("n", Json.int 1)],
                                       Json.obj [("n", Json.int 2)]])]) "" =
      ([{ path := "items[*].n", name := "items[*]_n", type := "int" }], [])
    ∧ ("items[*]_n".toList.contains '[') = true :=
  ⟨rfl, by decide⟩

/-- Claim C8, amended: for every Metric and Tag the analyzer emits, `name`
equals `path` with the **dot** separators replaced by underscores (bracket
suffixes are kept verbatim); in particular the nested numeric leaf example
produces path "cpu.load" and name "cpu_load". -/
theorem c8_amended :
    (∀ (data : Json) (pre : String),
      ((analyze_json_structure data pre).1.all (fun m => m.name == replaceDots m.path)
        && (analyze_json_structure data pre).2.all
            (fun t => t.name == replaceDots t.path)) = true)
    ∧ analyze_json_structure (Json.obj [("cpu", Json.obj [("load", Json.float (1/2))])]) "" =
        ([{ path := "cpu.load", name := "cpu_load", type := "float" }], []) :=
  ⟨analyze_names_ok, rfl⟩

/-- Claim C9.  When the refresh grant succeeds (2xx JSON body containing an
access token), `_refresh_openid_token` overwrites the device's record —
new access token; the response's refresh token, or the old one when the
response omits it; `expires_at` = now + `expires_in` with default 300 —
and persists the updated store (disk = the new in-memory table).  The
lookup conjunct confirms the device's stored record is the new one. -/
theorem c9_refresh_success_updates_store (fuel : Nat) (env : OidcEnv)
    (now : Nat) (device : String) (cfg : OidcConfig)
    (token_data : TokenRecord) (st : OidcState)
    (tok : String) (rt : Option String) (ei : Option Nat)
    (h : env.refresh st.refresh_calls = GrantResult.ok (some tok) rt ei) :
    refresh_openid_token fuel env now device cfg token_data st =
      some { disk := some (storeSet st.mem device
                { access_token := tok,
                  refresh_token := match rt with
                    | some r => some r
                    | none => token_data.refresh_token,
                  expires_at := now + ei.getD 300,
                  token_url := token_data.token_url,
                  client_id := token_data.client_id }),
             mem := storeSet st.mem device
                { access_token := tok,
                  refresh_token := match rt with
                    | some r => some r
                    | none => token_data.refresh_token,
                  expires_at := now + ei.getD 300,
                  token_url := token_data.token_url,
                  client_id := token_data.client_id },
             auth_token := some tok,
             refresh_calls := st.refresh_calls + 1,
             password_calls := st.password_calls }
    ∧ (storeSet st.mem device
        { access_token := tok,
          refresh_token := match rt with
            | some r => some r
            | none => token_data.refresh_token,
          expires_at := now + ei.getD 300,
          token_url := token_data.token_url,
          client_id := token_data.client_id }).lookup device =
      some { access_token := tok,
             refresh_token := match rt with
               | some r => some r
               | none => token_data.refresh_token,
             expires_at := now + ei.getD 300,
             token_url := token_data.token_url,
             client_id := token_data.client_id } := by
  constructor
  · rw [refresh_openid_token.eq_def]
    simp only [h]
    cases rt <;> rfl
  · exact storeSet_lookup _ _ _

/-- Claim C9 witness: the theorem applied to a concrete expired record and
a refresh response that supplies only a new access token, so the old
refresh token is retained and `expires_at` becomes now + 300. -/
theorem c9_witness :
    refresh_openid_token 3 oidcRefreshOkEnv 1000 "dev1" oidcCfgEx
        expiredRecord oidcMemState =
      some { disk := some [("dev1", refreshedRecord)],
             mem := [("dev1", refreshedRecord)],
             auth_token := some "tkn2", refresh_calls := 1, password_calls := 0 }
    ∧ ([("dev1", refreshedRecord)] : List (String × TokenRecord)).lookup "dev1" =
        some refreshedRecord :=
  c9_refresh_success_updates_store 3 oidcRefreshOkEnv 1000 "dev1" oidcCfgEx
    expiredRecord oidcMemState "tkn2" none none rfl

/-- Claim C10.  The summary counters: `total_endpoints` is the length of
the full configured list (skipped auth endpoints included); the success
counter counts exactly the processed endpoints whose response parsed as
JSON and the failure counter exactly those whose request raised — a
non-JSON 2xx response moves neither counter.  Consequently (second
conjunct, concrete device whose endpoint answers non-JSON) the two
counters can sum to strictly less than the total. -/
theorem c10_summary_counters :
    (∀ (cfg : ApiConfig) (env : SampleEnv),
      (discover_from_samples cfg env).total_endpoints =
        (cfg.endpoints.getD defaultEndpoints).length
      ∧ (discover_from_samples cfg env).successful_endpoints =
          (((cfg.endpoints.getD defaultEndpoints).filter
            (keptEndpoint cfg.auth_type cfg.auth_endpoint)).filter
              (outcomeIsJson env)).length
      ∧ (discover_from_samples cfg env).failed_endpoints =
          (((cfg.endpoints.getD defaultEndpoints).filter
            (keptEndpoint cfg.auth_type cfg.auth_endpoint)).filter
              (outcomeIsError env)).length)
    ∧ (discover_from_samples cfgPlain envNonJson).successful_endpoints
        + (discover_from_samples cfgPlain envNonJson).failed_endpoints
        < (discover_from_samples cfgPlain envNonJson).total_endpoints := by
  constructor
  · intro cfg env
    obtain ⟨-, -, e3, e4⟩ :=
      sampleLoop_spec cfg.auth_type cfg.auth_endpoint env
        (cfg.endpoints.getD defaultEndpoints)
    exact ⟨rfl, e3, e4⟩
  · decide
